import Mathlib

/-!
Verification development for the wasm-gpu-canvas repository.

The repository renders an animated row of polygons through WebGL2
(`src/lib.rs`) and also contains a WebGPU-flavoured immediate-mode drawing
context (`src/canvas2d.rs`).  This file shallowly embeds the parts of the
code the specification talks about:

* the procedural geometry generator (`add_polygon_vertices`, the four
  attribute arrays built inside `setup_polygon_buffers`, `hsl_to_rgb`);
* the GPU upload / draw driver (`Canvas2D` in `lib.rs`) together with an
  explicit model of the WebGL state it mutates — buffer creation is driven
  by an oracle (`allocOk`) so that allocation failure paths are expressible;
* the `draw_line` early-exit of the second `Canvas2D` (`canvas2d.rs`);
* the element-count arithmetic of `draw_fractal_tree`, with Rust `u32`
  overflow / division-by-zero panics modelled as `Option.none`.

`f32` values are idealised as real numbers; machine-integer subtleties that
the code can actually hit (`u32` pow/sub/div in `draw_fractal_tree`) are
modelled with explicit checked operations.
-/

namespace WasmGpuCanvas

/-! ### Constants (src/lib.rs lines 24-28) -/

def DEFAULT_ELEMENT_COUNT : ℕ := 10

/-- Number of segments used to approximate a shape. -/
def SEGMENTS : ℕ := 30

def MIN_POLYGON_SIDES : ℕ := 3

/-- Center point + segments + repeat first point. -/
def VERTICES_PER_POLYGON : ℕ := SEGMENTS + 2

/-! ### HSL to RGB conversion (src/lib.rs lines 772-805) -/

/-- Function `hue_to_rgb` from src/lib.rs: the Rust code first shifts `t` into range
(`t += 1.0` when negative, then `t -= 1.0` when above one, testing the
updated value) and then evaluates the piecewise-linear hue function. -/
noncomputable def hue_to_rgb (p q t0 : ℝ) : ℝ :=
  let t1 := if t0 < 0 then t0 + 1 else t0
  let t := if t1 > 1 then t1 - 1 else t1
  if t < 1 / 6 then p + (q - p) * 6 * t
  else if t < 1 / 2 then q
  else if t < 2 / 3 then p + (q - p) * (2 / 3 - t) * 6
  else p

/-- Function `hsl_to_rgb` from src/lib.rs. -/
noncomputable def hsl_to_rgb (h s l : ℝ) : ℝ × ℝ × ℝ :=
  if s = 0 then (l, l, l)
  else
    let q := if l < 1 / 2 then l * (1 + s) else l + s - l * s
    let p := 2 * l - q
    (hue_to_rgb p q (h + 1 / 3), hue_to_rgb p q h, hue_to_rgb p q (h - 1 / 3))

/-! ### Polygon vertex generation (src/lib.rs lines 740-770)

The Rust code pushes flat `f32` triples onto a `Vec`; we model each vertex
as an `ℝ × ℝ × ℝ` triple and provide `flat3` to recover the flat sequence. -/

/-- The rim point the loop body of `add_polygon_vertices` pushes for loop
index `k`: angle `(k % actual_sides) as f32 * 2.0 * PI / actual_sides`,
radius `0.12`, `z = 0`.  (For `actualSides = 0` the Rust `%` would panic;
all call sites pass `actualSides ≥ 3`.) -/
noncomputable def rimPoint (actualSides k : ℕ) : ℝ × ℝ × ℝ :=
  let angle : ℝ := ((k % actualSides : ℕ) : ℝ) * 2 * Real.pi / (actualSides : ℝ)
  (Real.cos angle * 0.12, Real.sin angle * 0.12, 0)

/-- Function `add_polygon_vertices` from src/lib.rs: one center point `(0,0,0)`,
then rim points for `k = 0 ..= actual_sides` where
`actual_sides = sides.min(SEGMENTS)`, then copies of the last pushed point
for `k = actual_sides+1 ..= SEGMENTS` (the last pushed rim point is the one
with loop index `actual_sides`). -/
noncomputable def add_polygon_vertices (sides : ℕ) : List (ℝ × ℝ × ℝ) :=
  let actual_sides := min sides SEGMENTS
  ((0 : ℝ), (0 : ℝ), (0 : ℝ)) ::
    ((List.range (actual_sides + 1)).map (rimPoint actual_sides) ++
      List.replicate (SEGMENTS - actual_sides) (rimPoint actual_sides actual_sides))

/-- Flatten a list of position triples into the flat float sequence the Rust
`Vec<f32>` holds. -/
def flat3 (l : List (ℝ × ℝ × ℝ)) : List ℝ :=
  l.flatMap (fun v => [v.1, v.2.1, v.2.2])

/-- Flatten a list of RGBA quadruples into the flat float sequence. -/
def flat4 (l : List (ℝ × ℝ × ℝ × ℝ)) : List ℝ :=
  l.flatMap (fun v => [v.1, v.2.1, v.2.2.1, v.2.2.2])

/-! ### The four attribute arrays built by `setup_polygon_buffers`
(src/lib.rs lines 607-639) -/

/-- Source line `let sides = MIN_POLYGON_SIDES + i;` (src/lib.rs line 617). -/
def sidesOf (i : ℕ) : ℕ := MIN_POLYGON_SIDES + i

/-- The position triples of all polygons, in emission order. -/
noncomputable def allVertexTriples (count : ℕ) : List (ℝ × ℝ × ℝ) :=
  (List.range count).flatMap (fun i => add_polygon_vertices (sidesOf i))

/-- Array `all_vertices`: the flat position float array. -/
noncomputable def allVertices (count : ℕ) : List ℝ :=
  flat3 (allVertexTriples count)

/-- The RGB colour of polygon `i` of `count`:
`hsl_to_rgb(i as f32 / count as f32, 0.9, 0.6)`. -/
noncomputable def polygonRGB (count i : ℕ) : ℝ × ℝ × ℝ :=
  hsl_to_rgb ((i : ℝ) / (count : ℝ)) 0.9 0.6

/-- The RGBA quadruples of all polygons: the colour of polygon `i` repeated
for each of its `VERTICES_PER_POLYGON` vertices, alpha `1.0`. -/
noncomputable def allColorTuples (count : ℕ) : List (ℝ × ℝ × ℝ × ℝ) :=
  (List.range count).flatMap (fun i =>
    List.replicate VERTICES_PER_POLYGON
      ((polygonRGB count i).1, (polygonRGB count i).2.1, (polygonRGB count i).2.2, (1 : ℝ)))

/-- Array `all_colors`: the flat colour float array. -/
noncomputable def allColors (count : ℕ) : List ℝ :=
  flat4 (allColorTuples count)

/-- Array `all_instance_indices`: `i as f32` repeated per vertex. -/
noncomputable def allInstanceIndices (count : ℕ) : List ℝ :=
  (List.range count).flatMap (fun i =>
    List.replicate VERTICES_PER_POLYGON ((i : ℝ)))

/-- Array `all_side_counts`: `sides as f32` (uncapped) repeated per vertex. -/
noncomputable def allSideCounts (count : ℕ) : List ℝ :=
  (List.range count).flatMap (fun i =>
    List.replicate VERTICES_PER_POLYGON ((sidesOf i : ℕ) : ℝ))

/-! ### WebGL state model

`setup_polygon_buffers` (src/lib.rs lines 641-737) issues a fixed sequence
of WebGL calls: for each of the four attributes it creates a buffer (which
the code treats as fallible, `ok_or("Failed to create ... buffer")`), binds
it to `ARRAY_BUFFER`, uploads the float array with `buffer_data`, points
the attribute at the currently bound buffer with `vertex_attrib_pointer`
(component widths 3, 4, 1, 1) and enables it.  We model the GL context
state explicitly; `allocOk` is an oracle prescribing the outcome of the
next `create_buffer` calls (an empty oracle means every creation succeeds),
and `calls` counts every GL call issued, so "no GPU call happened" is
expressible as an unchanged state. -/

/-- Per-attribute state recorded in the vertex array object: which buffer
`vertex_attrib_pointer` captured, the component width, and whether the
attribute array is enabled. -/
structure GLAttrib where
  buffer : Option ℕ
  size : ℕ
  enabled : Bool
deriving DecidableEq

/-- The four named attributes of the fixed shader program. -/
inductive AttrName
  | position
  | color
  | instanceIndex
  | sideCount
deriving DecidableEq

/-- Modelled WebGL context state. -/
structure GLState where
  nextBufId : ℕ
  allocOk : List Bool
  stores : List (ℕ × List ℝ)
  boundArray : Option ℕ
  aPosition : GLAttrib
  aColor : GLAttrib
  aInstance : GLAttrib
  aSideCount : GLAttrib
  programAlive : Bool
  vaoAlive : Bool
  calls : ℕ

/-- Models `gl.create_buffer()`: consumes one oracle entry; on success hands out a
fresh buffer id. -/
def createBuffer (gl : GLState) : Option ℕ × GLState :=
  match gl.allocOk with
  | [] =>
      (some gl.nextBufId,
        { gl with nextBufId := gl.nextBufId + 1, calls := gl.calls + 1 })
  | b :: rest =>
      if b then
        (some gl.nextBufId,
          { gl with nextBufId := gl.nextBufId + 1, allocOk := rest,
                    calls := gl.calls + 1 })
      else
        (none, { gl with allocOk := rest, calls := gl.calls + 1 })

/-- Models `gl.bind_buffer(ARRAY_BUFFER, buf)`. -/
def bindArrayBuffer (gl : GLState) (id : ℕ) : GLState :=
  { gl with boundArray := some id, calls := gl.calls + 1 }

/-- Models `gl.buffer_data_with_array_buffer_view(ARRAY_BUFFER, data, STATIC_DRAW)`:
stores `data` into the currently bound buffer. -/
def bufferDataF32 (gl : GLState) (data : List ℝ) : GLState :=
  match gl.boundArray with
  | some id => { gl with stores := (id, data) :: gl.stores, calls := gl.calls + 1 }
  | none => { gl with calls := gl.calls + 1 }

/-- Models `gl.vertex_attrib_pointer_with_i32(loc, size, FLOAT, false, 0, 0)`:
records the currently bound `ARRAY_BUFFER` and the component width for the
attribute. -/
def vertexAttribPointer (gl : GLState) (a : AttrName) (size : ℕ) : GLState :=
  match a with
  | AttrName.position =>
      { gl with aPosition := { gl.aPosition with buffer := gl.boundArray, size := size },
                calls := gl.calls + 1 }
  | AttrName.color =>
      { gl with aColor := { gl.aColor with buffer := gl.boundArray, size := size },
                calls := gl.calls + 1 }
  | AttrName.instanceIndex =>
      { gl with aInstance := { gl.aInstance with buffer := gl.boundArray, size := size },
                calls := gl.calls + 1 }
  | AttrName.sideCount =>
      { gl with aSideCount := { gl.aSideCount with buffer := gl.boundArray, size := size },
                calls := gl.calls + 1 }

/-- Models `gl.enable_vertex_attrib_array(loc)`. -/
def enableVertexAttribArray (gl : GLState) (a : AttrName) : GLState :=
  match a with
  | AttrName.position =>
      { gl with aPosition := { gl.aPosition with enabled := true }, calls := gl.calls + 1 }
  | AttrName.color =>
      { gl with aColor := { gl.aColor with enabled := true }, calls := gl.calls + 1 }
  | AttrName.instanceIndex =>
      { gl with aInstance := { gl.aInstance with enabled := true }, calls := gl.calls + 1 }
  | AttrName.sideCount =>
      { gl with aSideCount := { gl.aSideCount with enabled := true }, calls := gl.calls + 1 }

/-- Retrieve the latest data uploaded into buffer `k`. -/
def lookupStore : List (ℕ × List ℝ) → ℕ → Option (List ℝ)
  | [], _ => none
  | (j, d) :: rest, k => if k = j then some d else lookupStore rest k

/-- One upload stage of `setup_polygon_buffers`: create, bind, upload,
point the attribute (with its component width), enable. -/
noncomputable def uploadStage (gl : GLState) (a : AttrName) (size : ℕ)
    (data : List ℝ) (errMsg : String) : Except String Unit × GLState :=
  match createBuffer gl with
  | (none, gl1) => (Except.error errMsg, gl1)
  | (some b, gl1) =>
      (Except.ok (),
        enableVertexAttribArray
          (vertexAttribPointer (bufferDataF32 (bindArrayBuffer gl1 b) data) a size) a)

/-- Function `setup_polygon_buffers` (src/lib.rs lines 607-737): builds the four
attribute arrays for `num_polygons` polygons and runs the four upload
stages in source order (position, color, instance index, side count).
A failed buffer creation aborts the function at that point via `?`,
leaving the GL mutations of the earlier stages in place. -/
noncomputable def setup_polygon_buffers (gl : GLState) (num_polygons : ℕ) :
    Except String Unit × GLState :=
  match uploadStage gl AttrName.position 3 (allVertices num_polygons)
      "Failed to create position buffer" with
  | (Except.error e, gl1) => (Except.error e, gl1)
  | (Except.ok _, gl1) =>
    match uploadStage gl1 AttrName.color 4 (allColors num_polygons)
        "Failed to create color buffer" with
    | (Except.error e, gl2) => (Except.error e, gl2)
    | (Except.ok _, gl2) =>
      match uploadStage gl2 AttrName.instanceIndex 1 (allInstanceIndices num_polygons)
          "Failed to create instance buffer" with
      | (Except.error e, gl3) => (Except.error e, gl3)
      | (Except.ok _, gl3) =>
        match uploadStage gl3 AttrName.sideCount 1 (allSideCounts num_polygons)
            "Failed to create side count buffer" with
        | (Except.error e, gl4) => (Except.error e, gl4)
        | (Except.ok _, gl4) => (Except.ok (), gl4)

/-! ### The Canvas2D driver (src/lib.rs lines 137-603) -/

/-- The `ShapeType` enum. -/
inductive ShapeType
  | Regular
  | Star
  | Spiral
deriving DecidableEq

/-- The `RenderOptions` struct. -/
structure RenderOptions where
  animate : Bool
  center_x : ℝ
  center_y : ℝ
  scale : ℝ
  spacing : ℝ
  rotation : ℝ
  shape_type : ShapeType

/-- Constructor `RenderOptions::new()`: the documented defaults. -/
noncomputable def RenderOptions.new : RenderOptions :=
  { animate := true, center_x := 0, center_y := 0, scale := 1, spacing := 1,
    rotation := 0, shape_type := ShapeType.Regular }

/-- The fields `draw_polygon_row` probes on its `options` argument.  A
`none` field models an absent / null / undefined / wrongly-typed property
(all of which leave the default in place); `shape_type` carries the value
after the `as u32` cast. -/
structure OptFields where
  animate : Option Bool
  center_x : Option ℝ
  center_y : Option ℝ
  scale : Option ℝ
  spacing : Option ℝ
  rotation : Option ℝ
  shape_type : Option ℕ

/-- The `options: JsValue` argument: `none` models a null or undefined
value, for which the code skips field extraction entirely. -/
def JsOpts : Type := Option OptFields

/-- The option-parsing prologue of `draw_polygon_row`
(src/lib.rs lines 252-324). -/
noncomputable def parseRenderOptions (o : JsOpts) : RenderOptions :=
  match o with
  | none => RenderOptions.new
  | some f =>
      { animate := f.animate.getD true
        center_x := f.center_x.getD 0
        center_y := f.center_y.getD 0
        scale := f.scale.getD 1
        spacing := f.spacing.getD 1
        rotation := f.rotation.getD 0
        shape_type :=
          match f.shape_type with
          | none => ShapeType.Regular
          | some 1 => ShapeType.Star
          | some 2 => ShapeType.Spiral
          | some _ => ShapeType.Regular }

/-- The state the `Canvas2D` struct owns (the GL handles live in
`GLState`; uniform locations are present in the fixed program). -/
structure Canvas where
  start_time : ℝ
  last_frame_time : ℝ
  width : ℕ
  height : ℕ
  element_count : ℕ
  is_disposed : Bool

/-- Method `Canvas2D::draw_polygon_row` (src/lib.rs lines 246-331): disposed
check, option parsing (the parsed record is never read again), buffer
setup, and only on success the element-count update. -/
noncomputable def draw_polygon_row (c : Canvas) (gl : GLState) (count : ℕ)
    (options : JsOpts) : Except String Unit × Canvas × GLState :=
  if c.is_disposed then (Except.error "Canvas has been disposed", c, gl)
  else
    let _render_options := parseRenderOptions options
    match setup_polygon_buffers gl count with
    | (Except.error e, gl2) => (Except.error e, c, gl2)
    | (Except.ok _, gl2) =>
        (Except.ok (), { c with element_count := count }, gl2)

/-- Method `Canvas2D::clear` (src/lib.rs lines 334-344): disposed check, then
`clear_color` and `clear` (two GL calls). -/
def Canvas.clear (c : Canvas) (gl : GLState) (_r _g _b _a : ℝ) :
    Except String Unit × Canvas × GLState :=
  if c.is_disposed then (Except.error "Canvas has been disposed", c, gl)
  else (Except.ok (), c, { gl with calls := gl.calls + 2 })

/-- Method `Canvas2D::render` (src/lib.rs lines 347-417): disposed check; a pure
no-op returning `0.0` when `element_count == 0`; otherwise reads the clock
(`now`, milliseconds), updates `last_frame_time`, issues eight GL calls
(use_program, bind_vertex_array, three scalar uniforms, the matrix
uniform, clear_color, clear) plus one `draw_arrays` per polygon, and
returns `delta_time * 1000.0` where `delta_time = (now - last) / 1000.0`. -/
noncomputable def Canvas.render (c : Canvas) (gl : GLState) (now : ℝ) :
    Except String ℝ × Canvas × GLState :=
  if c.is_disposed then (Except.error "Canvas has been disposed", c, gl)
  else if c.element_count = 0 then (Except.ok 0, c, gl)
  else
    (Except.ok ((now - c.last_frame_time) / 1000 * 1000),
      { c with last_frame_time := now },
      { gl with calls := gl.calls + 8 + c.element_count })

/-- Method `Canvas2D::resize` (src/lib.rs lines 421-431): disposed check, stores
the dimensions, one `viewport` call. -/
def Canvas.resize (c : Canvas) (gl : GLState) (w h : ℕ) :
    Except String Unit × Canvas × GLState :=
  if c.is_disposed then (Except.error "Canvas has been disposed", c, gl)
  else (Except.ok (), { c with width := w, height := h },
        { gl with calls := gl.calls + 1 })

/-- Method `Canvas2D::dispose` (src/lib.rs lines 441-454): a no-op success when
already disposed; otherwise deletes the program and the vertex array
object and sets the flag. -/
def Canvas.dispose (c : Canvas) (gl : GLState) :
    Except String Unit × Canvas × GLState :=
  if c.is_disposed then (Except.ok (), c, gl)
  else
    (Except.ok (), { c with is_disposed := true },
      { gl with programAlive := false, vaoAlive := false, calls := gl.calls + 2 })

/-! ### `draw_fractal_tree` element-count arithmetic
(src/lib.rs lines 564-603)

The count is computed in Rust `u32` arithmetic as
`((2u32.pow(max_depth) - 1) / (branch_count - 1)).min(100)`.
`u32::pow` overflow, subtraction overflow and division by zero all panic;
we model a panic as `Option.none`. -/

/-- Checked `u32` subtraction: panics (`none`) on underflow. -/
def u32CheckedSub (a b : ℕ) : Option ℕ :=
  if b ≤ a then some (a - b) else none

/-- Checked `u32` division: panics (`none`) on a zero divisor. -/
def u32CheckedDiv (a b : ℕ) : Option ℕ :=
  if b = 0 then none else some (a / b)

/-- Checked `2u32.pow d`: panics (`none`) when the result overflows 32
bits. -/
def u32CheckedPow2 (d : ℕ) : Option ℕ :=
  if 2 ^ d < 2 ^ 32 then some (2 ^ d) else none

/-- The element count `draw_fractal_tree` computes
(src/lib.rs lines 596-597), with each fallible `u32` step made explicit. -/
def fractalElementCount (max_depth branch_count : ℕ) : Option ℕ := do
  let p ← u32CheckedPow2 max_depth
  let n ← u32CheckedSub p 1
  let d ← u32CheckedSub branch_count 1
  let q ← u32CheckedDiv n d
  pure (min q 100)

/-- The `branch_count` default in `draw_fractal_tree`
(src/lib.rs line 572): `let mut branch_count: u32 = 3;`. -/
def defaultBranchCount : ℕ := 3

/-! ### The second `Canvas2D` (src/canvas2d.rs) -/

/-- The `[f32; 4]` current colour. -/
structure RGBA where
  r : ℝ
  g : ℝ
  b : ℝ
  a : ℝ

/-- The mutable state of the `Canvas2D` drawing context in
src/canvas2d.rs (the GPU buffer handles are fixed and never change). -/
structure CState where
  vertices : List ℝ
  indices : List ℕ
  vertex_count : ℕ
  index_count : ℕ
  current_color : RGBA

/-- The initial state built by `Canvas2D::new` (src/canvas2d.rs lines
39-48): empty geometry, white colour. -/
def CState.new : CState :=
  { vertices := [], indices := [], vertex_count := 0, index_count := 0,
    current_color := { r := 1, g := 1, b := 1, a := 1 } }

/-- Method `Canvas2D::add_vertex` (src/canvas2d.rs lines 188-200): pushes the
position and the current colour, increments the vertex count. -/
def CState.add_vertex (s : CState) (x y : ℝ) : CState :=
  { s with
    vertices := s.vertices ++
      [x, y, s.current_color.r, s.current_color.g, s.current_color.b, s.current_color.a],
    vertex_count := s.vertex_count + 1 }

/-- Method `Canvas2D::draw_line` (src/canvas2d.rs lines 154-185): computes the
endpoint distance and silently returns when it is below `0.0001`;
otherwise emits a quad of four vertices and six indices
(`base_vertex = self.vertex_count as u16`, hence the `% 65536`). -/
noncomputable def CState.draw_line (s : CState) (x1 y1 x2 y2 thickness : ℝ) : CState :=
  let base_vertex := s.vertex_count % 65536
  let dx := x2 - x1
  let dy := y2 - y1
  let length := Real.sqrt (dx * dx + dy * dy)
  if length < 0.0001 then s
  else
    let nx := dy / length * thickness * 0.5
    let ny := -dx / length * thickness * 0.5
    let s1 := s.add_vertex (x1 + nx) (y1 + ny)
    let s2 := s1.add_vertex (x2 + nx) (y2 + ny)
    let s3 := s2.add_vertex (x2 - nx) (y2 - ny)
    let s4 := s3.add_vertex (x1 - nx) (y1 - ny)
    { s4 with
      indices := s4.indices ++
        [base_vertex, base_vertex + 1, base_vertex + 2,
         base_vertex, base_vertex + 2, base_vertex + 3],
      index_count := s4.index_count + 6 }

/-! ### Concrete states used to instantiate theorems -/

/-- A freshly initialised GL context model: no buffers yet, nothing bound,
no attribute configured, every buffer creation succeeding. -/
def GLState.initial : GLState :=
  { nextBufId := 0, allocOk := [], stores := [], boundArray := none,
    aPosition := { buffer := none, size := 0, enabled := false },
    aColor := { buffer := none, size := 0, enabled := false },
    aInstance := { buffer := none, size := 0, enabled := false },
    aSideCount := { buffer := none, size := 0, enabled := false },
    programAlive := true, vaoAlive := true, calls := 0 }

/-- A live canvas as produced by `Canvas2D::init`. -/
def Canvas.fresh : Canvas :=
  { start_time := 0, last_frame_time := 0, width := 640, height := 480,
    element_count := 0, is_disposed := false }

/-- A canvas on which `dispose()` has already run. -/
def disposedCanvas : Canvas :=
  { Canvas.fresh with is_disposed := true }

/-- A GL context whose second buffer creation is refused: the position
stage of `setup_polygon_buffers` succeeds, the color stage fails. -/
def failSecondAllocGL : GLState :=
  { GLState.initial with allocOk := [true, false] }

/-- A GL context whose first buffer creation is refused. -/
def failFirstAllocGL : GLState :=
  { GLState.initial with allocOk := [false] }

/-! ### Helper lemmas: fixed-stride blocks of a flatMap -/

theorem flatMap_length_const {α β : Type} (f : β → List α) (B : ℕ)
    (hB : ∀ x, (f x).length = B) (l : List β) :
    (l.flatMap f).length = l.length * B := by
  induction l with
  | nil => simp
  | cons x xs ih =>
      simp only [List.flatMap_cons, List.length_append, List.length_cons, ih, hB]
      ring

theorem flatMap_block {α β : Type} (f : β → List α) (B : ℕ)
    (hB : ∀ x, (f x).length = B) :
    ∀ (l : List β) (i : ℕ) (h : i < l.length),
      ((l.flatMap f).drop (i * B)).take B = f l[i] := by
  intro l
  induction l with
  | nil => intro i h; exact absurd h (by simp)
  | cons x xs ih =>
      intro i h
      cases i with
      | zero =>
          simp only [Nat.zero_mul, List.drop_zero, List.flatMap_cons,
            List.getElem_cons_zero]
          exact List.take_left' (hB x)
      | succ j =>
          have hj : j < xs.length := by simpa using h
          have h1 : ((x :: xs).flatMap f).drop ((j + 1) * B)
              = (xs.flatMap f).drop (j * B) := by
            rw [List.flatMap_cons, Nat.add_mul, Nat.one_mul,
              Nat.add_comm (j * B) B, ← List.drop_drop, List.drop_left' (hB x)]
          rw [h1, ih j hj]
          simp

theorem flatMap_range_block {α : Type} (f : ℕ → List α) (B : ℕ)
    (hB : ∀ x, (f x).length = B) (n i : ℕ) (h : i < n) :
    (((List.range n).flatMap f).drop (i * B)).take B = f i := by
  have h2 : i < (List.range n).length := by simpa using h
  rw [flatMap_block f B hB (List.range n) i h2]
  simp

/-! ### Helper lemmas: lengths of the generated arrays -/

theorem add_polygon_vertices_length (s : ℕ) :
    (add_polygon_vertices s).length = VERTICES_PER_POLYGON := by
  simp only [add_polygon_vertices, VERTICES_PER_POLYGON, SEGMENTS,
    List.length_cons, List.length_append, List.length_map, List.length_range,
    List.length_replicate]
  omega

theorem flat3_length (l : List (ℝ × ℝ × ℝ)) :
    (flat3 l).length = l.length * 3 := by
  unfold flat3
  exact flatMap_length_const (fun v => [v.1, v.2.1, v.2.2]) 3 (fun _ => rfl) l

theorem flat4_length (l : List (ℝ × ℝ × ℝ × ℝ)) :
    (flat4 l).length = l.length * 4 := by
  unfold flat4
  exact flatMap_length_const (fun v => [v.1, v.2.1, v.2.2.1, v.2.2.2]) 4 (fun _ => rfl) l

theorem allVertexTriples_length (count : ℕ) :
    (allVertexTriples count).length = count * VERTICES_PER_POLYGON := by
  unfold allVertexTriples
  rw [flatMap_length_const _ VERTICES_PER_POLYGON
    (fun j => add_polygon_vertices_length (sidesOf j))]
  simp

theorem allColorTuples_length (count : ℕ) :
    (allColorTuples count).length = count * VERTICES_PER_POLYGON := by
  unfold allColorTuples
  rw [flatMap_length_const _ VERTICES_PER_POLYGON (fun j => List.length_replicate _ _)]
  simp

theorem allInstanceIndices_length (count : ℕ) :
    (allInstanceIndices count).length = count * VERTICES_PER_POLYGON := by
  unfold allInstanceIndices
  rw [flatMap_length_const _ VERTICES_PER_POLYGON (fun j => List.length_replicate _ _)]
  simp

theorem allSideCounts_length (count : ℕ) :
    (allSideCounts count).length = count * VERTICES_PER_POLYGON := by
  unfold allSideCounts
  rw [flatMap_length_const _ VERTICES_PER_POLYGON (fun j => List.length_replicate _ _)]
  simp

/-! ### Helper lemmas: per-polygon blocks -/

theorem vertex_block (count i : ℕ) (h : i < count) :
    ((allVertexTriples count).drop (i * VERTICES_PER_POLYGON)).take
        VERTICES_PER_POLYGON
      = add_polygon_vertices (sidesOf i) := by
  unfold allVertexTriples
  exact flatMap_range_block _ _ (fun j => add_polygon_vertices_length (sidesOf j))
    count i h

theorem color_block (count i : ℕ) (h : i < count) :
    ((allColorTuples count).drop (i * VERTICES_PER_POLYGON)).take
        VERTICES_PER_POLYGON
      = List.replicate VERTICES_PER_POLYGON
          ((polygonRGB count i).1, (polygonRGB count i).2.1,
            (polygonRGB count i).2.2, (1 : ℝ)) := by
  unfold allColorTuples
  exact flatMap_range_block _ _ (fun j => List.length_replicate _ _) count i h

theorem side_count_block (count i : ℕ) (h : i < count) :
    ((allSideCounts count).drop (i * VERTICES_PER_POLYGON)).take
        VERTICES_PER_POLYGON
      = List.replicate VERTICES_PER_POLYGON ((sidesOf i : ℕ) : ℝ) := by
  unfold allSideCounts
  exact flatMap_range_block _ _ (fun j => List.length_replicate _ _) count i h

/-! ### Claim C1 -/

/-- C1 (counterexample): the geometry generator's four outputs are flat
float arrays of lengths `count*32*3`, `count*32*4`, `count*32`, `count*32`;
at `count = 1` they are 96, 128, 32 and 32 floats long, so the four flat
numeric sequences are neither equal in length nor each of length
`count * (SEGMENTS+2) = 32`. -/
theorem c1_flat_lengths_counterexample :
    (allVertices 1).length = 96 ∧ (allColors 1).length = 128 ∧
    (allInstanceIndices 1).length = 32 ∧ (allSideCounts 1).length = 32 ∧
    ¬((allVertices 1).length = 1 * (SEGMENTS + 2) ∧
      (allColors 1).length = 1 * (SEGMENTS + 2) ∧
      (allInstanceIndices 1).length = 1 * (SEGMENTS + 2) ∧
      (allSideCounts 1).length = 1 * (SEGMENTS + 2)) := by
  have hv : (allVertices 1).length = 96 := by
    simp only [allVertices]
    rw [flat3_length, allVertexTriples_length]
    norm_num [VERTICES_PER_POLYGON, SEGMENTS]
  have hc : (allColors 1).length = 128 := by
    simp only [allColors]
    rw [flat4_length, allColorTuples_length]
    norm_num [VERTICES_PER_POLYGON, SEGMENTS]
  have hif : (allInstanceIndices 1).length = 32 := by
    rw [allInstanceIndices_length]
    norm_num [VERTICES_PER_POLYGON, SEGMENTS]
  have hsf : (allSideCounts 1).length = 32 := by
    rw [allSideCounts_length]
    norm_num [VERTICES_PER_POLYGON, SEGMENTS]
  refine ⟨hv, hc, hif, hsf, ?_⟩
  rintro ⟨h1, -, -, -⟩
  rw [hv] at h1
  norm_num [SEGMENTS] at h1

/-- C1 (amended): for every `count ≥ 0` the generator emits four parallel
sequences describing `count * (SEGMENTS+2) = count * 32` vertices each:
as flat float arrays their lengths are `count*32*3` (positions, three
components per vertex), `count*32*4` (colors), `count*32` (instance
indices) and `count*32` (side counts); `count = 0` yields four empty
sequences. -/
theorem c1_generate_lengths (count : ℕ) :
    (allVertexTriples count).length = count * VERTICES_PER_POLYGON ∧
    (allColorTuples count).length = count * VERTICES_PER_POLYGON ∧
    (allInstanceIndices count).length = count * VERTICES_PER_POLYGON ∧
    (allSideCounts count).length = count * VERTICES_PER_POLYGON ∧
    (allVertices count).length = count * VERTICES_PER_POLYGON * 3 ∧
    (allColors count).length = count * VERTICES_PER_POLYGON * 4 ∧
    allVertices 0 = [] ∧ allColors 0 = [] ∧
    allInstanceIndices 0 = [] ∧ allSideCounts 0 = [] := by
  refine ⟨allVertexTriples_length count, allColorTuples_length count,
    allInstanceIndices_length count, allSideCounts_length count, ?_, ?_,
    rfl, rfl, rfl, rfl⟩
  · simp only [allVertices]
    rw [flat3_length, allVertexTriples_length]
  · simp only [allColors]
    rw [flat4_length, allColorTuples_length]

/-! ### Claim C2 -/

/-- C2: polygon `i` has side count `sides = max(3, 3+i) = 3+i ≥ 3`; the
`sideCount` attribute replicated over all `SEGMENTS+2` of its vertices
holds the uncapped value; every non-center vertex of its block is one of
the `min(sides, SEGMENTS)` rim points (so only that many distinct sides
are used for the rim geometry); `sides = 3` for polygon 0 and `sides = 7`
for polygon 4. -/
theorem c2_side_count_semantics (count i : ℕ) (hi : i < count) :
    sidesOf i = max 3 (3 + i) ∧
    3 ≤ sidesOf i ∧
    ((allSideCounts count).drop (i * VERTICES_PER_POLYGON)).take
        VERTICES_PER_POLYGON
      = List.replicate VERTICES_PER_POLYGON ((sidesOf i : ℕ) : ℝ) ∧
    (∀ v ∈ (((allVertexTriples count).drop (i * VERTICES_PER_POLYGON)).take
        VERTICES_PER_POLYGON).tail,
      ∃ k, k < min (sidesOf i) SEGMENTS ∧
        v = rimPoint (min (sidesOf i) SEGMENTS) k) ∧
    sidesOf 0 = 3 ∧ sidesOf 4 = 7 := by
  have hes : 0 < min (sidesOf i) SEGMENTS := by
    simp only [sidesOf, MIN_POLYGON_SIDES, SEGMENTS]
    omega
  refine ⟨by simp [sidesOf, MIN_POLYGON_SIDES], by simp [sidesOf, MIN_POLYGON_SIDES],
    side_count_block count i hi, ?_, rfl, rfl⟩
  rw [vertex_block count i hi]
  simp only [add_polygon_vertices, List.tail_cons]
  intro v hv
  rcases List.mem_append.mp hv with hrim | hpad
  · rcases List.mem_map.mp hrim with ⟨k, -, hk⟩
    refine ⟨k % min (sidesOf i) SEGMENTS, Nat.mod_lt _ hes, ?_⟩
    rw [← hk]
    simp [rimPoint, Nat.mod_mod_of_dvd _ dvd_rfl]
  · rw [List.eq_of_mem_replicate hpad]
    refine ⟨0, hes, ?_⟩
    simp [rimPoint, Nat.mod_self, Nat.zero_mod]

/-- C2 witness at `count = 5`, `i = 4`. -/
theorem c2_side_count_semantics_witness : (4 : ℕ) < 5 ∧ sidesOf 4 = 7 :=
  ⟨by norm_num, (c2_side_count_semantics 5 4 (by norm_num)).2.2.2.2.2⟩

/-! ### Claim C3 -/

/-- C3: the vertex block of polygon `i` is, in order, the center `(0,0,0)`,
then `effective_sides + 1` rim vertices, the `k`-th at angle
`2·π·(k mod effective_sides)/effective_sides` and radius `0.12`
(`x = cos·0.12`, `y = sin·0.12`, `z = 0`) with
`effective_sides = min(3+i, SEGMENTS)`, then copies of the last rim vertex
up to exactly `SEGMENTS + 2 = 32` vertices; the uploaded flat position
array is the flattening of these blocks. -/
theorem c3_vertex_block_layout (count i : ℕ) (hi : i < count) :
    ((allVertexTriples count).drop (i * VERTICES_PER_POLYGON)).take
        VERTICES_PER_POLYGON
      = ((0 : ℝ), (0 : ℝ), (0 : ℝ)) ::
        (((List.range (min (3 + i) SEGMENTS + 1)).map (fun k =>
            (Real.cos (2 * Real.pi * ((k % min (3 + i) SEGMENTS : ℕ) : ℝ)
                / ((min (3 + i) SEGMENTS : ℕ) : ℝ)) * 0.12,
             Real.sin (2 * Real.pi * ((k % min (3 + i) SEGMENTS : ℕ) : ℝ)
                / ((min (3 + i) SEGMENTS : ℕ) : ℝ)) * 0.12,
             (0 : ℝ)))) ++
          List.replicate (SEGMENTS - min (3 + i) SEGMENTS)
            (Real.cos (2 * Real.pi
                * ((min (3 + i) SEGMENTS % min (3 + i) SEGMENTS : ℕ) : ℝ)
                / ((min (3 + i) SEGMENTS : ℕ) : ℝ)) * 0.12,
             Real.sin (2 * Real.pi
                * ((min (3 + i) SEGMENTS % min (3 + i) SEGMENTS : ℕ) : ℝ)
                / ((min (3 + i) SEGMENTS : ℕ) : ℝ)) * 0.12,
             (0 : ℝ))) ∧
    (((allVertexTriples count).drop (i * VERTICES_PER_POLYGON)).take
        VERTICES_PER_POLYGON).length = SEGMENTS + 2 ∧
    allVertices count = flat3 (allVertexTriples count) := by
  have harg : ∀ (x y : ℝ), x * 2 * Real.pi / y = 2 * Real.pi * x / y :=
    fun x y => by ring
  refine ⟨?_, ?_, rfl⟩
  · rw [vertex_block count i hi]
    simp only [add_polygon_vertices, sidesOf, MIN_POLYGON_SIDES, rimPoint, harg]
    congr 1
    congr 1
    exact List.map_congr_left (fun a _ => by simp only [rimPoint, harg])
  · rw [vertex_block count i hi, add_polygon_vertices_length]
    rfl

/-- C3 witness at `count = 1`, `i = 0`. -/
theorem c3_vertex_block_layout_witness :
    (0 : ℕ) < 1 ∧
    (((allVertexTriples 1).drop (0 * VERTICES_PER_POLYGON)).take
        VERTICES_PER_POLYGON).length = SEGMENTS + 2 :=
  ⟨by norm_num, (c3_vertex_block_layout 1 0 (by norm_num)).2.1⟩

/-! ### Claim C8 -/

/-- C8: every vertex of polygon `i` carries the same RGBA colour
`(hsl_to_rgb(i/count, 0.9, 0.6), alpha = 1.0)`, and the embedded
piecewise-linear HSL conversion satisfies
`hsl_to_rgb h 0 l = (l, l, l)` for every hue and lightness. -/
theorem c8_polygon_colors (count i : ℕ) (hi : i < count) :
    ((allColorTuples count).drop (i * VERTICES_PER_POLYGON)).take
        VERTICES_PER_POLYGON
      = List.replicate VERTICES_PER_POLYGON
          ((hsl_to_rgb ((i : ℝ) / (count : ℝ)) 0.9 0.6).1,
           (hsl_to_rgb ((i : ℝ) / (count : ℝ)) 0.9 0.6).2.1,
           (hsl_to_rgb ((i : ℝ) / (count : ℝ)) 0.9 0.6).2.2, (1 : ℝ)) ∧
    (∀ h l : ℝ, hsl_to_rgb h 0 l = (l, l, l)) := by
  constructor
  · rw [color_block count i hi]
    rfl
  · intro h l
    simp [hsl_to_rgb]

/-- C8 witness at `count = 1`, `i = 0`. -/
theorem c8_polygon_colors_witness :
    (0 : ℕ) < 1 ∧
    ((allColorTuples 1).drop (0 * VERTICES_PER_POLYGON)).take
        VERTICES_PER_POLYGON
      = List.replicate VERTICES_PER_POLYGON
          ((hsl_to_rgb (((0 : ℕ) : ℝ) / ((1 : ℕ) : ℝ)) 0.9 0.6).1,
           (hsl_to_rgb (((0 : ℕ) : ℝ) / ((1 : ℕ) : ℝ)) 0.9 0.6).2.1,
           (hsl_to_rgb (((0 : ℕ) : ℝ) / ((1 : ℕ) : ℝ)) 0.9 0.6).2.2, (1 : ℝ)) :=
  ⟨by norm_num, (c8_polygon_colors 1 0 (by norm_num)).1⟩

/-! ### Claim C4 -/

/-- C4: once `dispose()` has returned, `draw_polygon_row`, `render`,
`resize` and `clear` all fail with the dedicated disposed error without
touching the canvas or issuing any GL call; a second `dispose()` is a
successful no-op; and no operation ever clears `is_disposed` (each
preserves the flag, and `dispose` always leaves it set). -/
theorem c4_disposed_state_machine (c : Canvas) (gl : GLState)
    (h : c.is_disposed = true) (count : ℕ) (o : JsOpts) (now r g b a : ℝ)
    (w hgt : ℕ) :
    draw_polygon_row c gl count o
      = (Except.error "Canvas has been disposed", c, gl) ∧
    c.render gl now = (Except.error "Canvas has been disposed", c, gl) ∧
    c.resize gl w hgt = (Except.error "Canvas has been disposed", c, gl) ∧
    c.clear gl r g b a = (Except.error "Canvas has been disposed", c, gl) ∧
    c.dispose gl = (Except.ok (), c, gl) ∧
    (∀ (c2 : Canvas) (gl2 : GLState) (count2 : ℕ) (o2 : JsOpts),
      ((draw_polygon_row c2 gl2 count2 o2).2.1).is_disposed = c2.is_disposed) ∧
    (∀ (c2 : Canvas) (gl2 : GLState) (now2 : ℝ),
      ((c2.render gl2 now2).2.1).is_disposed = c2.is_disposed) ∧
    (∀ (c2 : Canvas) (gl2 : GLState) (w2 h2 : ℕ),
      ((c2.resize gl2 w2 h2).2.1).is_disposed = c2.is_disposed) ∧
    (∀ (c2 : Canvas) (gl2 : GLState) (r2 g2 b2 a2 : ℝ),
      ((c2.clear gl2 r2 g2 b2 a2).2.1).is_disposed = c2.is_disposed) ∧
    (∀ (c2 : Canvas) (gl2 : GLState),
      ((c2.dispose gl2).2.1).is_disposed = true) := by
  refine ⟨by simp [draw_polygon_row, h], by simp [Canvas.render, h],
    by simp [Canvas.resize, h], by simp [Canvas.clear, h],
    by simp [Canvas.dispose, h], ?_, ?_, ?_, ?_, ?_⟩
  · intro c2 gl2 count2 o2
    by_cases h2 : c2.is_disposed
    · simp [draw_polygon_row, h2]
    · rcases hs : setup_polygon_buffers gl2 count2 with ⟨res, gl3⟩
      cases res <;> simp [draw_polygon_row, h2, hs]
  · intro c2 gl2 now2
    by_cases h2 : c2.is_disposed
    · simp [Canvas.render, h2]
    · by_cases he : c2.element_count = 0 <;> simp [Canvas.render, h2, he]
  · intro c2 gl2 w2 h2'
    by_cases h2 : c2.is_disposed <;> simp [Canvas.resize, h2]
  · intro c2 gl2 r2 g2 b2 a2
    by_cases h2 : c2.is_disposed <;> simp [Canvas.clear, h2]
  · intro c2 gl2
    by_cases h2 : c2.is_disposed <;> simp [Canvas.dispose, h2]

/-- C4 witness on a concrete disposed canvas. -/
theorem c4_disposed_state_machine_witness :
    disposedCanvas.is_disposed = true ∧
    draw_polygon_row disposedCanvas GLState.initial 5 none
      = (Except.error "Canvas has been disposed", disposedCanvas, GLState.initial) :=
  ⟨rfl, (c4_disposed_state_machine disposedCanvas GLState.initial rfl 5 none
      0 0 0 0 0 640 480).1⟩

/-! ### Claim C5 -/

/-- C5 (counterexample): a `draw_polygon_row` call that fails inside
`setup_polygon_buffers` is not atomic on the GPU side: with the second
buffer creation refused, the call fails with the color-buffer error, yet
the `position` attribute binding has already been redirected to the newly
created buffer (it was unbound before the call and points at buffer 0
after it). -/
theorem c5_atomicity_counterexample :
    (draw_polygon_row Canvas.fresh failSecondAllocGL 2 none).1
      = Except.error "Failed to create color buffer" ∧
    failSecondAllocGL.aPosition.buffer = none ∧
    ((draw_polygon_row Canvas.fresh failSecondAllocGL 2 none).2.2).aPosition.buffer
      = some 0 := by
  exact ⟨rfl, rfl, rfl⟩

/-- C5 (amended): a failure inside `draw_polygon_row` aborts that single
call with the error and leaves the whole `Canvas2D` state — in particular
the stored `element_count` — unchanged; GL-side buffer and attribute state
may however already reflect the upload stages completed before the
failure. -/
theorem c5_failure_leaves_canvas_unchanged (c : Canvas) (gl : GLState)
    (count : ℕ) (o : JsOpts) (e : String)
    (herr : (draw_polygon_row c gl count o).1 = Except.error e) :
    (draw_polygon_row c gl count o).2.1 = c := by
  by_cases hd : c.is_disposed
  · simp [draw_polygon_row, hd]
  · rcases hs : setup_polygon_buffers gl count with ⟨res, gl2⟩
    cases res with
    | error e2 => simp [draw_polygon_row, hd, hs]
    | ok _ => simp [draw_polygon_row, hd, hs] at herr

/-- C5 witness: a concrete failing call (first allocation refused) whose
canvas state is returned unchanged. -/
theorem c5_failure_leaves_canvas_unchanged_witness :
    (draw_polygon_row Canvas.fresh failFirstAllocGL 1 none).1
      = Except.error "Failed to create position buffer" ∧
    (draw_polygon_row Canvas.fresh failFirstAllocGL 1 none).2.1 = Canvas.fresh :=
  ⟨rfl, c5_failure_leaves_canvas_unchanged Canvas.fresh failFirstAllocGL 1 none
    "Failed to create position buffer" rfl⟩

/-! ### Claim C6 -/

/-- C6: `draw_polygon_row` is observably independent of its `options`
argument — for every canvas and GL state, every count, and any two option
records (including null/undefined), the full results (error/success value,
canvas state, GL state) coincide: the parsed fields are never read after
parsing. -/
theorem c6_options_have_no_effect (c : Canvas) (gl : GLState) (count : ℕ)
    (o1 o2 : JsOpts) :
    draw_polygon_row c gl count o1 = draw_polygon_row c gl count o2 := rfl

/-! ### Claim C7 -/

/-- After `setup_polygon_buffers` runs with every buffer creation
succeeding, the four attributes are bound to four fresh buffers holding
exactly the four generated arrays. -/
theorem setup_ok_fields (gl : GLState) (h : gl.allocOk = []) (n : ℕ) :
    ∃ gl2, setup_polygon_buffers gl n = (Except.ok (), gl2) ∧
      gl2.allocOk = [] ∧
      gl2.aPosition.buffer = some gl.nextBufId ∧
      gl2.aColor.buffer = some (gl.nextBufId + 1) ∧
      gl2.aInstance.buffer = some (gl.nextBufId + 2) ∧
      gl2.aSideCount.buffer = some (gl.nextBufId + 3) ∧
      gl2.nextBufId = gl.nextBufId + 4 ∧
      gl2.stores = (gl.nextBufId + 3, allSideCounts n) ::
        (gl.nextBufId + 2, allInstanceIndices n) ::
        (gl.nextBufId + 1, allColors n) ::
        (gl.nextBufId, allVertices n) :: gl.stores := by
  obtain ⟨nb, ao, sts, ba, ap, ac, ai, asg, pa, va, cl⟩ := gl
  replace h : ao = [] := h
  subst h
  exact ⟨_, rfl, rfl, rfl, rfl, rfl, rfl, rfl, rfl⟩

/-- C7: configuration is last-write-wins — `draw_polygon_row` for `N`
polygons followed by `draw_polygon_row` for `M` polygons on the same
non-disposed instance (with buffer creation succeeding) succeeds, records
`element_count = M`, and leaves all four attributes bound to buffers whose
latest uploaded contents are exactly the `M`-polygon geometry. -/
theorem c7_reconfigure_replaces (c : Canvas) (gl : GLState) (N M : ℕ)
    (o1 o2 : JsOpts) (r1 r2 : Except String Unit) (c1 c2 : Canvas)
    (gl1 gl2 : GLState)
    (hd : c.is_disposed = false) (ha : gl.allocOk = [])
    (h1 : draw_polygon_row c gl N o1 = (r1, c1, gl1))
    (h2 : draw_polygon_row c1 gl1 M o2 = (r2, c2, gl2)) :
    r2 = Except.ok () ∧ c2.element_count = M ∧
    (∃ b, gl2.aPosition.buffer = some b ∧
      lookupStore gl2.stores b = some (allVertices M)) ∧
    (∃ b, gl2.aColor.buffer = some b ∧
      lookupStore gl2.stores b = some (allColors M)) ∧
    (∃ b, gl2.aInstance.buffer = some b ∧
      lookupStore gl2.stores b = some (allInstanceIndices M)) ∧
    (∃ b, gl2.aSideCount.buffer = some b ∧
      lookupStore gl2.stores b = some (allSideCounts M)) := by
  obtain ⟨glN, hsN, haN, -, -, -, -, -, -⟩ := setup_ok_fields gl ha N
  have e1 : draw_polygon_row c gl N o1
      = (Except.ok (), { c with element_count := N }, glN) := by
    simp [draw_polygon_row, hd, hsN]
  rw [e1] at h1
  injection h1 with h1r h1p
  injection h1p with h1c h1g
  subst h1r h1c h1g
  obtain ⟨glM, hsM, haM, hpb, hcb, hib, hsb, hnb, hst⟩ :=
    setup_ok_fields glN haN M
  have e2 : draw_polygon_row { c with element_count := N } glN M o2
      = (Except.ok (), { c with element_count := M }, glM) := by
    simp [draw_polygon_row, hd, hsM]
  rw [e2] at h2
  injection h2 with h2r h2p
  injection h2p with h2c h2g
  subst h2r h2c h2g
  refine ⟨rfl, rfl, ⟨glN.nextBufId, hpb, ?_⟩, ⟨glN.nextBufId + 1, hcb, ?_⟩,
    ⟨glN.nextBufId + 2, hib, ?_⟩, ⟨glN.nextBufId + 3, hsb, ?_⟩⟩
  · rw [hst]
    simp [lookupStore]
  · rw [hst]
    simp [lookupStore]
  · rw [hst]
    simp [lookupStore]
  · rw [hst]
    simp [lookupStore]

/-- C7 witness: configure 1 then 2 polygons from a fresh state; exactly two
polygons remain active. -/
theorem c7_reconfigure_replaces_witness :
    Canvas.fresh.is_disposed = false ∧ GLState.initial.allocOk = [] ∧
    (draw_polygon_row (draw_polygon_row Canvas.fresh GLState.initial 1 none).2.1
        (draw_polygon_row Canvas.fresh GLState.initial 1 none).2.2 2
        none).2.1.element_count = 2 :=
  ⟨rfl, rfl, (c7_reconfigure_replaces Canvas.fresh GLState.initial 1 2 none none
      _ _ _ _ _ _ rfl rfl rfl rfl).2.1⟩

/-! ### Claim C9 -/

/-- C9: `draw_fractal_tree` computes
`element_count = min((2^max_depth - 1) / (branch_count - 1), 100)`; under
`branch_count ≥ 2` and `max_depth ≤ 31` none of the `u32` power,
subtraction or division steps faults and the result is at most 100;
`branch_count = 1` (the divisor's only guard being the caller) makes the
division fault for every depth; the options default is `branch_count = 3`. -/
theorem c9_fractal_element_count (max_depth branch_count : ℕ)
    (hb : 2 ≤ branch_count) (hdep : max_depth ≤ 31) :
    fractalElementCount max_depth branch_count
      = some (min ((2 ^ max_depth - 1) / (branch_count - 1)) 100) ∧
    min ((2 ^ max_depth - 1) / (branch_count - 1)) 100 ≤ 100 ∧
    (∀ d : ℕ, fractalElementCount d 1 = none) ∧
    defaultBranchCount = 3 := by
  have hpow : (2 : ℕ) ^ max_depth < 4294967296 :=
    lt_of_le_of_lt (Nat.pow_le_pow_right (by norm_num) hdep) (by norm_num)
  have h1 : 1 ≤ (2 : ℕ) ^ max_depth := Nat.one_le_pow _ _ (by norm_num)
  have h2 : 1 ≤ branch_count := by omega
  have h3 : ¬(branch_count - 1 = 0) := by omega
  refine ⟨?_, min_le_right _ _, ?_, rfl⟩
  · simp [fractalElementCount, u32CheckedPow2, u32CheckedSub, u32CheckedDiv,
      hpow, h1, h2, h3]
  · intro d
    by_cases hp : (2 : ℕ) ^ d < 4294967296 <;>
      simp [fractalElementCount, u32CheckedPow2, u32CheckedSub, u32CheckedDiv,
        hp, Nat.one_le_pow _ 2 (by norm_num)]

/-- C9 witness at `max_depth = 5`, `branch_count = 3`. -/
theorem c9_fractal_element_count_witness :
    ((2 : ℕ) ≤ 3 ∧ (5 : ℕ) ≤ 31) ∧
    fractalElementCount 5 3 = some (min ((2 ^ 5 - 1) / (3 - 1)) 100) :=
  ⟨⟨by norm_num, by norm_num⟩,
    (c9_fractal_element_count 5 3 (by norm_num) (by norm_num)).1⟩

/-! ### Claim C10 -/

/-- C10: a `draw_line` request whose endpoint distance is below `0.0001`
— in particular a zero-length line — is silently skipped: the call returns
(without any error path existing) and vertices, indices, `vertex_count`
and `index_count` are all unchanged. -/
theorem c10_degenerate_line_skipped (s : CState) (x1 y1 x2 y2 thickness : ℝ)
    (h : Real.sqrt ((x2 - x1) * (x2 - x1) + (y2 - y1) * (y2 - y1)) < 0.0001) :
    s.draw_line x1 y1 x2 y2 thickness = s ∧
    (s.draw_line x1 y1 x2 y2 thickness).vertices = s.vertices ∧
    (s.draw_line x1 y1 x2 y2 thickness).indices = s.indices ∧
    (s.draw_line x1 y1 x2 y2 thickness).vertex_count = s.vertex_count ∧
    (s.draw_line x1 y1 x2 y2 thickness).index_count = s.index_count := by
  have he : s.draw_line x1 y1 x2 y2 thickness = s := by
    simp only [CState.draw_line]
    rw [if_pos h]
  exact ⟨he, by rw [he], by rw [he], by rw [he], by rw [he]⟩

/-- C10 witness: the zero-length line on the freshly constructed state. -/
theorem c10_degenerate_line_skipped_witness :
    Real.sqrt (((0 : ℝ) - 0) * ((0 : ℝ) - 0) + ((0 : ℝ) - 0) * ((0 : ℝ) - 0))
        < 0.0001 ∧
    CState.new.draw_line 0 0 0 0 1 = CState.new := by
  have h : Real.sqrt (((0 : ℝ) - 0) * ((0 : ℝ) - 0)
      + ((0 : ℝ) - 0) * ((0 : ℝ) - 0)) < 0.0001 := by
    rw [show ((0 : ℝ) - 0) * ((0 : ℝ) - 0) + ((0 : ℝ) - 0) * ((0 : ℝ) - 0)
        = 0 by ring, Real.sqrt_zero]
    norm_num
  exact ⟨h, (c10_degenerate_line_skipped CState.new 0 0 0 0 1 h).1⟩

end WasmGpuCanvas
